import Mathlib

/-!
Verification of the Speaker Session Manager of the noti-fin repository
(`useBluetoothService` hook): device discovery, connection lifecycle,
phrase translation, speech dispatch and voice listing, shallowly embedded
in Lean.  React `useState` setters are modelled as explicit state passing;
inside one asynchronous invocation, reads of a state variable see the
snapshot captured when the invocation started (direct `set` writes replace
the state, functional `set(prev => ...)` writes apply to the current
state), which matches the closure semantics of the source hook.
-/

namespace NotiFin

/-- Prefix test on character lists (used to embed JavaScript
`String.prototype.includes`). -/
def listIsPrefixOf : List Char → List Char → Bool
  | [], _ => true
  | _ :: _, [] => false
  | a :: as, b :: bs => a = b && listIsPrefixOf as bs

/-- Does `needle` occur as a contiguous run inside `hay`? -/
def includesAux (needle : List Char) : List Char → Bool
  | [] => listIsPrefixOf needle []
  | c :: t => listIsPrefixOf needle (c :: t) || includesAux needle t

/-- Embedding of JavaScript `hay.includes(needle)` (substring test). -/
def strIncludes (hay needle : String) : Bool :=
  includesAux needle.data hay.data

/-- Embedding of JavaScript `toLowerCase()`, character by character (the
strings this program compares are ASCII, where the two agree). -/
def strToLower (s : String) : String :=
  String.mk (s.data.map Char.toLower)

/-- Embedding of JavaScript `trim()`: strip whitespace from both ends. -/
def strTrim (s : String) : String :=
  String.mk (((s.data.dropWhile Char.isWhitespace).reverse.dropWhile Char.isWhitespace).reverse)

/-- `BluetoothDevice` record from the source: optional name, id,
optional address, and the `connected` flag (absent = `false`). -/
structure BluetoothDevice where
  name : Option String
  id : String
  address : Option String
  connected : Bool
deriving Repr, DecidableEq

/-- The fixed baseline device list `MOCK_DEVICES` from the source. -/
def MOCK_DEVICES : List BluetoothDevice :=
  [ { name := some "Generic Bluetooth Speaker", id := "00:11:22:33:44:55",
      address := some "00:11:22:33:44:55", connected := false },
    { name := some "WYS-2301BT", id := "00:22:33:44:55:66",
      address := some "00:22:33:44:55:66", connected := false },
    { name := some "Portable Speaker", id := "00:33:44:55:66:77",
      address := some "00:33:44:55:66:77", connected := false } ]

/-- The hex alphabet used by `generateRandomId`. -/
def hexChars : List Char := "0123456789ABCDEF".data

/-- `hexChars.charAt(n)` for an in-range random draw `n`. -/
def hexCharAt (n : Fin 16) : Char := hexChars.getD n.val '0'

/-- One two-character section of `generateRandomId`, drawing the random
indices `r base` and `r (base+1)` from the random stream `r`. -/
def randomSection (r : Nat → Fin 16) (base : Nat) : String :=
  String.mk [hexCharAt (r base), hexCharAt (r (base + 1))]

/-- Embedding of `generateRandomId`: six random two-hex-character sections
joined by `:`.  The randomness of `Math.random` is made explicit as a
stream `r` of draws in `[0, 16)`; the loop consumes draws `r 0 .. r 11`. -/
def generateRandomId (r : Nat → Fin 16) : String :=
  randomSection r 0 ++ ":" ++ randomSection r 2 ++ ":" ++ randomSection r 4 ++ ":" ++
    randomSection r 6 ++ ":" ++ randomSection r 8 ++ ":" ++ randomSection r 10

/-- Names of the `additionalDevices` candidate pool in `scanForDevices`. -/
def additionalDeviceNames : List String :=
  ["JBL Flip", "Bose SoundLink", "Sony SRS-XB12", "Anker Soundcore"]

/-- The `additionalDevices` array built inside `scanForDevices`: each
candidate gets a fresh `generateRandomId()` for its id and another one for
its address, consuming the random stream left to right (24 draws per
candidate). -/
def additionalDevices (r : Nat → Fin 16) : List BluetoothDevice :=
  (List.range 4).map fun i =>
    { name := some (additionalDeviceNames.getD i ""),
      id := generateRandomId (fun k => r (24 * i + k)),
      address := some (generateRandomId (fun k => r (24 * i + 12 + k))),
      connected := false }

/-- The random choices one call of `scanForDevices` makes: the
`Math.random() > 0.5` coin, the value `Math.floor(Math.random() * 3)`
(so `numToAdd = extraCount + 1`), and the stream feeding
`generateRandomId`. -/
structure ScanRandom where
  coin : Bool
  extraCount : Fin 3
  r : Nat → Fin 16

/-- The extra devices one run of `scanForDevices` pushes: when the coin
lands above 0.5, the first `numToAdd = extraCount + 1` candidates of
`additionalDevices`, otherwise none. -/
def scanExtras (sr : ScanRandom) : List BluetoothDevice :=
  if sr.coin then (additionalDevices sr.r).take (sr.extraCount.val + 1) else []

/-- The device list produced by one run of `scanForDevices`: the baseline
`MOCK_DEVICES` always, plus the coin-dependent extras. -/
def scanDevices (sr : ScanRandom) : List BluetoothDevice :=
  MOCK_DEVICES ++ scanExtras sr

/-- The registry slice of the hook state: the `devices` list, the
`connectedDevice` field and the `isScanning` flag. -/
structure SessionState where
  devices : List BluetoothDevice
  connectedDevice : Option BluetoothDevice
  isScanning : Bool
deriving Repr, DecidableEq

/-- The state after the initialization effect: `setDevices(MOCK_DEVICES)`,
no connected device, not scanning. -/
def initState : SessionState :=
  { devices := MOCK_DEVICES, connectedDevice := none, isScanning := false }

/-- State effect of `scanForDevices`: replaces the device list wholesale
and ends with `isScanning` reset to `false`. -/
def scanForDevices (sr : ScanRandom) (s : SessionState) : SessionState :=
  { s with devices := scanDevices sr, isScanning := false }

/-- Embedding of `connectToDevice`.  The source shows a confirmation
alert; only the `OK` button's handler mutates state (`userConfirms =
true`), while the other button leaves state untouched.  The function
itself returns `true` either way (the catch branch is unreachable in the
model). -/
def connectToDevice (device : BluetoothDevice) (userConfirms : Bool)
    (s : SessionState) : Bool × SessionState :=
  if userConfirms then
    (true,
     { s with
        connectedDevice := some { device with connected := true },
        devices := s.devices.map fun d =>
          if d.id = device.id then { d with connected := true } else d })
  else (true, s)

/-- Embedding of `disconnectDevice`: early return when nothing is
connected, otherwise clear `connectedDevice` and mark every listed device
disconnected. -/
def disconnectDevice (s : SessionState) : SessionState :=
  match s.connectedDevice with
  | none => s
  | some _ =>
      { s with
          connectedDevice := none,
          devices := s.devices.map fun d => { d with connected := false } }

/-- The device search both lookups of `forceConnectToDevice` perform:
case-insensitive substring match on the name, or exact match on id or
address. -/
def findDevice (devices : List BluetoothDevice) (q : String) : Option BluetoothDevice :=
  devices.find? fun device =>
    (match device.name with
     | some n => strIncludes (strToLower n) (strToLower q)
     | none => false)
      || device.id = q || device.address = some q

/-- Embedding of `forceConnectToDevice`.  `s.devices` is the closure
snapshot the invocation reads throughout (React state reads inside one
async call see the render-time value), so the re-search after
`scanForDevices` and the `devices.length === 0` check both consult the
snapshot, while the functional update appending the synthesized device
applies to the post-scan state.  `idR`/`addrR` feed the two
`generateRandomId()` calls of the synthesized device. -/
def forceConnectToDevice (q : String) (sr : ScanRandom)
    (idR addrR : Nat → Fin 16) (userConfirms : Bool)
    (s : SessionState) : Bool × SessionState :=
  let devices0 := s.devices
  let d1 := findDevice devices0 q
  let afterScan : Option BluetoothDevice × SessionState :=
    if d1.isNone && q ≠ "" then
      (findDevice devices0 q, scanForDevices sr s)
    else (d1, s)
  match afterScan.1 with
  | some d => connectToDevice d userConfirms afterScan.2
  | none =>
      if devices0.length = 0 then (false, afterScan.2)
      else if q ≠ "" then
        let newDevice : BluetoothDevice :=
          { name := some q, id := generateRandomId idR,
            address := some (generateRandomId addrR), connected := false }
        let s2 := { afterScan.2 with devices := afterScan.2.devices ++ [newDevice] }
        connectToDevice newDevice userConfirms s2
      else (false, afterScan.2)

/-- One registry-mutating operation of the hook, with its nondeterministic
inputs (random draws, the user's choice on the confirmation alert). -/
inductive Step : SessionState → SessionState → Prop
  | scan (sr : ScanRandom) (s : SessionState) : Step s (scanForDevices sr s)
  | connect (d : BluetoothDevice) (confirm : Bool) (s : SessionState) :
      Step s (connectToDevice d confirm s).2
  | disconnect (s : SessionState) : Step s (disconnectDevice s)
  | force (q : String) (sr : ScanRandom) (idR addrR : Nat → Fin 16)
      (confirm : Bool) (s : SessionState) :
      Step s (forceConnectToDevice q sr idR addrR confirm s).2

/-- States the hook can actually be in: reachable from `initState` by the
registry-mutating operations. -/
def Reachable (s : SessionState) : Prop :=
  Relation.ReflTransGen Step initState s

/-! ## Phrase dictionary and translation -/

/-- The `DEFAULT_VIETNAMESE_PHRASES` object, as an insertion-ordered
association list (JavaScript objects with string keys iterate in insertion
order under `Object.entries`). -/
def DEFAULT_VIETNAMESE_PHRASES : List (String × String) :=
  [ ("hello", "Xin chào"),
    ("thank you", "Cảm ơn bạn"),
    ("goodbye", "Tạm biệt"),
    ("welcome", "Chào mừng"),
    ("how are you", "Bạn khỏe không"),
    ("good morning", "Chào buổi sáng"),
    ("good afternoon", "Chào buổi chiều"),
    ("good evening", "Chào buổi tối"),
    ("please", "Làm ơn"),
    ("sorry", "Xin lỗi"),
    ("what is your name", "Tên bạn là gì"),
    ("my name is", "Tên tôi là"),
    ("nice to meet you", "Rất vui được gặp bạn"),
    ("payment successful", "Thanh toán thành công"),
    ("payment received", "Đã nhận thanh toán") ]

/-- The translation loop inside `speak`: walk the entries in order, and on
the first key that is a substring of the lower-cased message take its
Vietnamese value and break; otherwise keep the original message. -/
def translateLoop (phrases : List (String × String)) (lowerMsg orig : String) : String :=
  match phrases with
  | [] => orig
  | (english, vietnamese) :: rest =>
      if strIncludes lowerMsg english then vietnamese
      else translateLoop rest lowerMsg orig

/-- Translation step of `speak`: lower-case the message, then run the
first-match loop over the phrase dictionary. -/
def translate (phrases : List (String × String)) (message : String) : String :=
  translateLoop phrases (strToLower message) message

/-- Value lookup in the association list (first entry with the key). -/
def lookupPhrase (dict : List (String × String)) (k : String) : Option String :=
  (dict.find? fun kv => kv.1 = k).map fun kv => kv.2

/-- JavaScript object update `{...dict, [k]: v}`: an existing key keeps
its position and gets the new value, a new key is appended. -/
def setKey (dict : List (String × String)) (k v : String) : List (String × String) :=
  if dict.any fun kv => kv.1 = k then
    dict.map fun kv => if kv.1 = k then (k, v) else kv
  else dict ++ [(k, v)]

/-- Outcome of `setCustomVietnamesePhrase`: the input-error alert or the
phrase-added alert. -/
inductive AddPhraseResult where
  | inputError
  | added
deriving Repr, DecidableEq

/-- Embedding of `setCustomVietnamesePhrase`: reject (and leave the
dictionary unchanged) exactly when either argument is the empty string
(JavaScript falsiness of a string), otherwise store the value under the
lower-cased English key. -/
def setCustomVietnamesePhrase (english vietnamese : String)
    (dict : List (String × String)) : AddPhraseResult × List (String × String) :=
  if english = "" || vietnamese = "" then (.inputError, dict)
  else (.added, setKey dict (strToLower english) vietnamese)

/-! ## Speech dispatch -/

/-- Calls `speak` makes into the speech engine. -/
inductive EngineCall where
  | stop
  | speakText (text : String)
deriving Repr, DecidableEq

/-- User-visible outcome of one `speak` call. -/
inductive SpeakOutcome where
  | deviceRequired
  | spoke (text : String)
  | speechError
deriving Repr, DecidableEq

/-- The speech-related hook state: the `isSpeaking` flag and the number of
`setTimeout(() => setIsSpeaking(false), 1000)` callbacks still pending. -/
structure SpeechState where
  isSpeaking : Bool
  pendingClears : Nat
deriving Repr, DecidableEq

/-- Embedding of `speak`.  With no connected device it alerts and returns
before touching anything.  Otherwise: a stop request if speech is in
progress, translation, `setIsSpeaking(true)`, then the engine call —
on failure the flag is cleared at once, on success a deferred clear is
scheduled.  `engineFails` is the nondeterministic outcome of the
underlying engine call. -/
def speakOp (connectedDevice : Option BluetoothDevice)
    (phrases : List (String × String)) (message : String) (engineFails : Bool)
    (st : SpeechState) : SpeakOutcome × List EngineCall × SpeechState :=
  match connectedDevice with
  | none => (.deviceRequired, [], st)
  | some _ =>
      let stopCalls : List EngineCall := if st.isSpeaking then [.stop] else []
      let textToSpeak := translate phrases message
      if engineFails then
        (.speechError, stopCalls ++ [.speakText textToSpeak],
         { st with isSpeaking := false })
      else
        (.spoke textToSpeak, stopCalls ++ [.speakText textToSpeak],
         { isSpeaking := true, pendingClears := st.pendingClears + 1 })

/-- Firing all pending `setIsSpeaking(false)` timeouts once the calls have
settled. -/
def settleTimeouts (st : SpeechState) : SpeechState :=
  if 0 < st.pendingClears then { isSpeaking := false, pendingClears := 0 }
  else st

/-- Run a sequence of `speak` calls (each with its connected device, its
message and its engine outcome) with a fixed dictionary, keeping only the
speech state. -/
def runSpeaks (phrases : List (String × String))
    (calls : List (Option BluetoothDevice × String × Bool))
    (st : SpeechState) : SpeechState :=
  calls.foldl (fun s c => (speakOp c.1 phrases c.2.1 c.2.2 s).2.2) st

/-! ## Voice listing -/

/-- The `Voice` record (only the fields the embedded code reads). -/
structure Voice where
  name : Option String
  language : Option String
deriving Repr, DecidableEq

/-- How the raced `ActiveTts.voices()` promise can end: resolve (possibly
with a null/undefined result), reject, or hang past the timeout. -/
inductive VoicesOutcome where
  | resolved (vs : Option (List Voice))
  | errored
  | timedOut
deriving DecidableEq

/-- The fallback voice resolved on timeout or error. -/
def fallbackVoice : Voice :=
  { name := some "Vietnamese (Fallback)", language := some "vi-VN" }

/-- The `setTimeout` bound of the voice race, in milliseconds. -/
def VOICE_TIMEOUT_MS : Nat := 3000

/-- The raced voice query of `getAvailableLanguages`/`initTts`: the
engine's result (with `result || []` for a null resolution), or the
one-element fallback on rejection or timeout. -/
def raceVoices (o : VoicesOutcome) : List Voice :=
  match o with
  | .resolved vs => vs.getD []
  | .errored => [fallbackVoice]
  | .timedOut => [fallbackVoice]

/-- Insertion-ordered deduplication, as `[...new Set(languages)]`. -/
def dedupFirst (l : List String) : List String :=
  l.foldl (fun acc x => if x ∈ acc then acc else acc ++ [x]) []

/-- Embedding of `getAvailableLanguages`: the hardcoded pair on the mock
engine, the `["vi-VN", "en-US"]` fallback when the surrounding try block
throws, and otherwise the deduplicated language tags of the raced voices
with `"vi-VN"` appended when missing.  The filters keep voices whose
`language` field is truthy (present and non-empty). -/
def getAvailableLanguages (usingMock outerError : Bool)
    (o : VoicesOutcome) : List String :=
  if usingMock then ["vi-VN", "en-US"]
  else if outerError then ["vi-VN", "en-US"]
  else
    let voices := raceVoices o
    let languages := voices.filterMap fun v =>
      match v.language with
      | some s => if s = "" then none else some s
      | none => none
    let uniqueLanguages := dedupFirst languages
    if "vi-VN" ∈ uniqueLanguages then uniqueLanguages
    else uniqueLanguages ++ ["vi-VN"]

/-! ## Concrete inputs used by witnesses and counterexamples -/

/-- First baseline device ("Generic Bluetooth Speaker"). -/
def mockDevice0 : BluetoothDevice :=
  { name := some "Generic Bluetooth Speaker", id := "00:11:22:33:44:55",
    address := some "00:11:22:33:44:55", connected := false }

/-- Second baseline device ("WYS-2301BT"). -/
def mockDevice1 : BluetoothDevice :=
  { name := some "WYS-2301BT", id := "00:22:33:44:55:66",
    address := some "00:22:33:44:55:66", connected := false }

/-- A constant random stream. -/
def rZero : Nat → Fin 16 := fun _ => 0

/-- A scan whose coin lands below 0.5: no extra devices. -/
def srNoExtras : ScanRandom := { coin := false, extraCount := 0, r := rZero }

/-- A random stream under which `generateRandomId` reproduces the id of
the first baseline device. -/
def rCollide : Nat → Fin 16 := fun k => ⟨k / 2 % 16, Nat.mod_lt _ (by decide)⟩

/-- A scan that draws one extra device whose generated id collides with a
baseline id. -/
def srCollide : ScanRandom := { coin := true, extraCount := 0, r := rCollide }

/-- The registry state before the initialization effect has run. -/
def emptyState : SessionState :=
  { devices := [], connectedDevice := none, isScanning := false }

/-! ## Helper lemmas -/

lemma translateLoop_eq_find (phrases : List (String × String)) (lowerMsg orig : String) :
    translateLoop phrases lowerMsg orig =
      match phrases.find? (fun kv => strIncludes lowerMsg kv.1) with
      | some kv => kv.2
      | none => orig := by
  induction phrases with
  | nil => rfl
  | cons kv rest ih =>
    obtain ⟨e, v⟩ := kv
    by_cases h : strIncludes lowerMsg e = true
    · simp [translateLoop, List.find?, h]
    · simp only [Bool.not_eq_true] at h
      simp [translateLoop, List.find?, h, ih]

/-- Whenever the speaking flag is set, a deferred clear is still pending. -/
def SpeechInv (st : SpeechState) : Prop :=
  st.isSpeaking = true → 0 < st.pendingClears

lemma speakOp_speechInv {cd : Option BluetoothDevice} {phrases : List (String × String)}
    {message : String} {engineFails : Bool} {st : SpeechState} (h : SpeechInv st) :
    SpeechInv (speakOp cd phrases message engineFails st).2.2 := by
  cases cd with
  | none => exact h
  | some d =>
    cases engineFails with
    | true => intro hs; simp [speakOp] at hs
    | false => intro _; simp [speakOp]

lemma runSpeaks_speechInv (phrases : List (String × String))
    (calls : List (Option BluetoothDevice × String × Bool)) :
    ∀ st : SpeechState, SpeechInv st → SpeechInv (runSpeaks phrases calls st) := by
  induction calls with
  | nil => intro st h; exact h
  | cons c rest ih =>
    intro st h
    exact ih _ (speakOp_speechInv h)

/-- A state with no connected device has no device flagged connected
(holds in every reachable state). -/
def NoGhostConnected (s : SessionState) : Prop :=
  s.connectedDevice = none → ∀ d ∈ s.devices, d.connected = false

lemma additionalDevices_connected_false (r : Nat → Fin 16) :
    ∀ d ∈ additionalDevices r, d.connected = false := by
  intro d hd
  obtain ⟨i, _, rfl⟩ := List.mem_map.mp hd
  rfl

lemma mock_devices_connected_false : ∀ d ∈ MOCK_DEVICES, d.connected = false := by
  intro d hd
  simp [MOCK_DEVICES] at hd
  rcases hd with rfl | rfl | rfl <;> rfl

lemma scanDevices_connected_false (sr : ScanRandom) :
    ∀ d ∈ scanDevices sr, d.connected = false := by
  intro d hd
  rw [scanDevices, List.mem_append] at hd
  rcases hd with hd | hd
  · exact mock_devices_connected_false d hd
  · rw [scanExtras] at hd
    split at hd
    · exact additionalDevices_connected_false sr.r d (List.mem_of_mem_take hd)
    · simp at hd

lemma noGhost_scanForDevices (sr : ScanRandom) (s : SessionState) :
    NoGhostConnected (scanForDevices sr s) := by
  intro _ d hd
  exact scanDevices_connected_false sr d hd

lemma noGhost_connectToDevice (d : BluetoothDevice) (confirm : Bool) (s : SessionState)
    (h : NoGhostConnected s) : NoGhostConnected (connectToDevice d confirm s).2 := by
  cases confirm with
  | false => exact h
  | true => intro hnone; simp [connectToDevice] at hnone

lemma noGhost_disconnectDevice (s : SessionState) (h : NoGhostConnected s) :
    NoGhostConnected (disconnectDevice s) := by
  unfold disconnectDevice
  split
  · exact h
  · intro _ d hd
    obtain ⟨e, _, rfl⟩ := List.mem_map.mp hd
    rfl

lemma noGhost_appendDevice (s : SessionState) (nd : BluetoothDevice)
    (h : NoGhostConnected s) (hnd : nd.connected = false) :
    NoGhostConnected { s with devices := s.devices ++ [nd] } := by
  intro hnone d hd
  rcases List.mem_append.mp hd with hd | hd
  · exact h hnone d hd
  · rw [List.mem_singleton.mp hd]; exact hnd

/-- The synthesized placeholder device of `forceConnectToDevice`. -/
def synthesizedDevice (q : String) (idR addrR : Nat → Fin 16) : BluetoothDevice :=
  { name := some q, id := generateRandomId idR,
    address := some (generateRandomId addrR), connected := false }

lemma forceConnect_found {q : String} {s : SessionState} {d : BluetoothDevice}
    (sr : ScanRandom) (idR addrR : Nat → Fin 16) (confirm : Bool)
    (hfd : findDevice s.devices q = some d) :
    forceConnectToDevice q sr idR addrR confirm s = connectToDevice d confirm s := by
  simp [forceConnectToDevice, hfd]

lemma forceConnect_notFound_nonempty {q : String} {s : SessionState}
    (sr : ScanRandom) (idR addrR : Nat → Fin 16) (confirm : Bool)
    (hfd : findDevice s.devices q = none) (hq : q ≠ "")
    (hne : s.devices.length ≠ 0) :
    forceConnectToDevice q sr idR addrR confirm s =
      connectToDevice (synthesizedDevice q idR addrR) confirm
        { scanForDevices sr s with
            devices := (scanForDevices sr s).devices ++ [synthesizedDevice q idR addrR] } := by
  simp [forceConnectToDevice, hfd, hq, hne, synthesizedDevice]

lemma forceConnect_notFound_empty {q : String} {s : SessionState}
    (sr : ScanRandom) (idR addrR : Nat → Fin 16) (confirm : Bool)
    (hfd : findDevice s.devices q = none) (hq : q ≠ "")
    (hempty : s.devices.length = 0) :
    forceConnectToDevice q sr idR addrR confirm s = (false, scanForDevices sr s) := by
  simp [forceConnectToDevice, hfd, hq, hempty]

lemma forceConnect_empty_query {s : SessionState}
    (sr : ScanRandom) (idR addrR : Nat → Fin 16) (confirm : Bool)
    (hfd : findDevice s.devices "" = none) :
    forceConnectToDevice "" sr idR addrR confirm s = (false, s) := by
  simp [forceConnectToDevice, hfd]

lemma noGhost_forceConnectToDevice (q : String) (sr : ScanRandom)
    (idR addrR : Nat → Fin 16) (confirm : Bool) (s : SessionState)
    (h : NoGhostConnected s) :
    NoGhostConnected (forceConnectToDevice q sr idR addrR confirm s).2 := by
  have hscan := noGhost_scanForDevices sr s
  cases hfd : findDevice s.devices q with
  | some d =>
    rw [forceConnect_found sr idR addrR confirm hfd]
    exact noGhost_connectToDevice d confirm s h
  | none =>
    by_cases hq : q = ""
    · subst hq
      rw [forceConnect_empty_query sr idR addrR confirm hfd]
      exact h
    · by_cases hlen : s.devices.length = 0
      · rw [forceConnect_notFound_empty sr idR addrR confirm hfd hq hlen]
        exact hscan
      · rw [forceConnect_notFound_nonempty sr idR addrR confirm hfd hq hlen]
        exact noGhost_connectToDevice _ confirm _
          (noGhost_appendDevice (scanForDevices sr s) (synthesizedDevice q idR addrR) hscan rfl)

lemma step_noGhost {s s' : SessionState} (hs : Step s s') (h : NoGhostConnected s) :
    NoGhostConnected s' := by
  cases hs with
  | scan sr s => exact noGhost_scanForDevices sr s
  | connect d confirm s => exact noGhost_connectToDevice d confirm s h
  | disconnect s => exact noGhost_disconnectDevice s h
  | force q sr idR addrR confirm s => exact noGhost_forceConnectToDevice q sr idR addrR confirm s h

lemma reachable_noGhost {s : SessionState} (h : Reachable s) : NoGhostConnected s := by
  induction h with
  | refl => intro _ d hd; exact mock_devices_connected_false d hd
  | tail _ hstep ih => exact step_noGhost hstep ih

lemma disconnectDevice_of_none {t : SessionState} (ht : t.connectedDevice = none) :
    disconnectDevice t = t := by
  unfold disconnectDevice
  rw [ht]

lemma find?_mapReplace_self (l : List (String × String)) (k v : String)
    (h : l.any (fun kv => kv.1 = k) = true) :
    (l.map fun kv => if kv.1 = k then (k, v) else kv).find? (fun kv => kv.1 = k) =
      some (k, v) := by
  induction l with
  | nil => simp at h
  | cons a t ih =>
    by_cases ha : a.1 = k
    · simp [List.find?, ha]
    · rw [List.any_cons] at h
      simp only [ha, decide_False, Bool.false_or] at h
      simp only [List.map_cons, if_neg ha, List.find?]
      simp only [ha, decide_False]
      exact ih h

lemma find?_mapReplace_other (l : List (String × String)) (k v k2 : String)
    (h : k2 ≠ k) :
    (l.map fun kv => if kv.1 = k then (k, v) else kv).find? (fun kv => kv.1 = k2) =
      l.find? (fun kv => kv.1 = k2) := by
  induction l with
  | nil => rfl
  | cons a t ih =>
    by_cases ha : a.1 = k
    · have hne : ¬ k = k2 := fun hk => h hk.symm
      simp only [List.map_cons, if_pos ha, List.find?]
      have hk2 : (decide (k = k2)) = false := by simp [hne]
      have ha2 : (decide (a.1 = k2)) = false := by simp [ha, hne]
      rw [hk2, ha2]
      exact ih
    · simp only [List.map_cons, if_neg ha, List.find?]
      cases hd : decide (a.1 = k2) with
      | true => rfl
      | false => exact ih

lemma find?_appendNew_self (l : List (String × String)) (k v : String)
    (h : l.any (fun kv => kv.1 = k) = false) :
    (l ++ [(k, v)]).find? (fun kv => kv.1 = k) = some (k, v) := by
  induction l with
  | nil => simp [List.find?]
  | cons a t ih =>
    rw [List.any_cons] at h
    simp only [Bool.or_eq_false_iff] at h
    simp only [List.cons_append, List.find?, h.1]
    exact ih h.2

lemma find?_appendNew_other (l : List (String × String)) (k v k2 : String)
    (h : k2 ≠ k) :
    (l ++ [(k, v)]).find? (fun kv => kv.1 = k2) = l.find? (fun kv => kv.1 = k2) := by
  induction l with
  | nil =>
    have hne : ¬ k = k2 := fun hk => h hk.symm
    simp only [List.nil_append, List.find?]
    simp [hne]
  | cons a t ih =>
    simp only [List.cons_append, List.find?]
    cases hd : decide (a.1 = k2) with
    | true => rfl
    | false => exact ih

lemma lookupPhrase_setKey_self (dict : List (String × String)) (k v : String) :
    lookupPhrase (setKey dict k v) k = some v := by
  unfold setKey lookupPhrase
  split
  · next h => rw [find?_mapReplace_self dict k v h]; rfl
  · next h =>
      rw [find?_appendNew_self dict k v (Bool.not_eq_true _ ▸ h)]; rfl

lemma lookupPhrase_setKey_other (dict : List (String × String)) (k v k2 : String)
    (h : k2 ≠ k) : lookupPhrase (setKey dict k v) k2 = lookupPhrase dict k2 := by
  unfold setKey lookupPhrase
  split
  · rw [find?_mapReplace_other dict k v k2 h]
  · rw [find?_appendNew_other dict k v k2 h]

/-! ## Claim theorems -/

/-- C4: `speak` issued with no connected device reports the
device-required error immediately, makes zero engine calls (no stop, no
speak) and leaves the speech state untouched. -/
theorem speak_no_device_required (phrases : List (String × String))
    (message : String) (engineFails : Bool) (st : SpeechState) :
    speakOp none phrases message engineFails st = (.deviceRequired, [], st) := rfl

/-- C5: translation lower-cases the input and returns the Vietnamese
value of the first dictionary entry (in insertion order) whose key is a
substring of it, or the original input when no key matches; on the default
dictionary, "I said thank you today" yields "Cảm ơn bạn". -/
theorem translate_substring_first_match :
    (∀ (phrases : List (String × String)) (message : String),
      translate phrases message =
        match phrases.find? (fun kv => strIncludes (strToLower message) kv.1) with
        | some kv => kv.2
        | none => message) ∧
    translate DEFAULT_VIETNAMESE_PHRASES "I said thank you today" = "Cảm ơn bạn" :=
  ⟨fun phrases message => translateLoop_eq_find phrases (strToLower message) message,
   by decide⟩

/-- C7: after any sequence of speak calls settles — rapid successive
calls and failing engine calls included — the in-progress speaking flag is
false; every path that raises the flag either clears it at once (engine
failure) or leaves a deferred clear pending, so it is never stuck true. -/
theorem speaking_flag_never_stuck (phrases : List (String × String))
    (calls : List (Option BluetoothDevice × String × Bool)) (st : SpeechState)
    (h : st.isSpeaking = true → 0 < st.pendingClears) :
    (settleTimeouts (runSpeaks phrases calls st)).isSpeaking = false := by
  have hinv := runSpeaks_speechInv phrases calls st h
  unfold settleTimeouts
  split
  · rfl
  · next hp =>
      cases hs : (runSpeaks phrases calls st).isSpeaking with
      | false => rfl
      | true => exact absurd (hinv hs) hp

/-- C7 witness: two rapid speak calls (the second while the first's clear
is still pending) from the idle speech state settle with the flag false. -/
theorem speaking_flag_never_stuck_witness :
    (settleTimeouts (runSpeaks DEFAULT_VIETNAMESE_PHRASES
      [(some mockDevice0, "payment received", false),
       (some mockDevice0, "hello", true)]
      { isSpeaking := false, pendingClears := 0 })).isSpeaking = false :=
  speaking_flag_never_stuck DEFAULT_VIETNAMESE_PHRASES
    [(some mockDevice0, "payment received", false), (some mockDevice0, "hello", true)]
    { isSpeaking := false, pendingClears := 0 } (by decide)

/-- C3: from every reachable state, `disconnectDevice` empties the
connected-device field and leaves zero devices flagged connected, and
running it again changes nothing (idempotent), including when nothing was
connected to begin with. -/
theorem disconnect_clears_and_idempotent (s : SessionState) (h : Reachable s) :
    (disconnectDevice s).connectedDevice = none ∧
    (∀ d ∈ (disconnectDevice s).devices, d.connected = false) ∧
    disconnectDevice (disconnectDevice s) = disconnectDevice s := by
  have hng := reachable_noGhost h
  cases hc : s.connectedDevice with
  | none =>
    have he : disconnectDevice s = s := disconnectDevice_of_none hc
    exact ⟨by rw [he, hc], by rw [he]; exact hng hc, by rw [he, he]⟩
  | some d0 =>
    have he : disconnectDevice s =
        { s with
            connectedDevice := none,
            devices := s.devices.map fun d => { d with connected := false } } := by
      unfold disconnectDevice
      rw [hc]
    refine ⟨by rw [he], ?_, ?_⟩
    · rw [he]
      intro d hd
      obtain ⟨e, _, rfl⟩ := List.mem_map.mp hd
      rfl
    · rw [he]
      exact disconnectDevice_of_none rfl

/-- C3 witness: disconnect from the post-initialization state (nothing
connected) leaves the state unchanged and connection-free. -/
theorem disconnect_clears_and_idempotent_witness :
    (disconnectDevice initState).connectedDevice = none ∧
    (∀ d ∈ (disconnectDevice initState).devices, d.connected = false) ∧
    disconnectDevice (disconnectDevice initState) = disconnectDevice initState :=
  disconnect_clears_and_idempotent initState Relation.ReflTransGen.refl

/-- C9: the voice query is raced against a fixed 3000 ms timeout, and on
timeout as well as on engine error it resolves to the one-element fallback
voice list whose entry carries language "vi-VN". -/
theorem listVoices_timeout_fallback :
    VOICE_TIMEOUT_MS = 3000 ∧
    raceVoices .timedOut = [fallbackVoice] ∧
    raceVoices .errored = [fallbackVoice] ∧
    (raceVoices .timedOut).length = 1 ∧
    fallbackVoice.language = some "vi-VN" := by decide

/-- C10: every value `getAvailableLanguages` returns contains "vi-VN":
the mock path and the outer-error path return ["vi-VN", "en-US"], and the
real path appends "vi-VN" whenever the raced voices do not provide it. -/
theorem getAvailableLanguages_contains_viVN (usingMock outerError : Bool)
    (o : VoicesOutcome) :
    "vi-VN" ∈ getAvailableLanguages usingMock outerError o := by
  unfold getAvailableLanguages
  cases usingMock with
  | true => simp
  | false =>
    cases outerError with
    | true => simp
    | false =>
      simp only [Bool.false_eq_true, if_false]
      split
      · assumption
      · exact List.mem_append_right _ (List.mem_singleton.mpr rfl)

/-- C1 counterexample: on an empty registry, `forceConnectToDevice
"Nonexistent-XYZ"` hits the `devices.length === 0` branch after the stale
re-search and returns false with nothing connected — not a Connected
synthesized device as claimed. -/
theorem forceConnect_empty_registry_counterexample :
    (forceConnectToDevice "Nonexistent-XYZ" srNoExtras rZero rZero true emptyState).1 = false ∧
    (forceConnectToDevice "Nonexistent-XYZ" srNoExtras rZero rZero true
      emptyState).2.connectedDevice = none := by
  decide

/-- C1 amended: with a non-empty snapshot registry (and the confirmation
prompt accepted), a non-empty query always yields `true` and a connected
device, which is a synthesized placeholder named after the query whenever
the registry does not match; an empty snapshot registry instead returns
false without connecting (see the counterexample). -/
theorem forceConnect_nonempty_registry (q : String) (sr : ScanRandom)
    (idR addrR : Nat → Fin 16) (s : SessionState)
    (hq : q ≠ "") (hne : s.devices.length ≠ 0) :
    (forceConnectToDevice q sr idR addrR true s).1 = true ∧
    ∃ d, (forceConnectToDevice q sr idR addrR true s).2.connectedDevice = some d ∧
      d.connected = true ∧
      (findDevice s.devices q = none → d.name = some q) := by
  cases hfd : findDevice s.devices q with
  | some d =>
    rw [forceConnect_found sr idR addrR true hfd]
    refine ⟨rfl, { d with connected := true }, rfl, rfl, ?_⟩
    intro hn
    exact Option.noConfusion hn
  | none =>
    rw [forceConnect_notFound_nonempty sr idR addrR true hfd hq hne]
    exact ⟨rfl, { synthesizedDevice q idR addrR with connected := true },
      rfl, rfl, fun _ => rfl⟩

/-- C1 witness: forcing "Nonexistent-XYZ" on the non-matching
post-initialization registry connects a synthesized device of that name. -/
theorem forceConnect_nonempty_registry_witness :
    (forceConnectToDevice "Nonexistent-XYZ" srNoExtras rZero rZero true initState).1 = true ∧
    ∃ d, (forceConnectToDevice "Nonexistent-XYZ" srNoExtras rZero rZero true
        initState).2.connectedDevice = some d ∧
      d.connected = true ∧
      (findDevice initState.devices "Nonexistent-XYZ" = none → d.name = some "Nonexistent-XYZ") :=
  forceConnect_nonempty_registry "Nonexistent-XYZ" srNoExtras rZero rZero initState
    (by decide) (by decide)

/-- C2 counterexample: from the initial state (reachable), confirming a
connect to the first baseline device and then to the second leaves two
registry entries flagged Connected — `connectToDevice` never clears the
previous device's flag, refuting "exactly one Connected" and the
at-most-one invariant. -/
theorem connect_two_connected_counterexample :
    Reachable (connectToDevice mockDevice1 true
      (connectToDevice mockDevice0 true initState).2).2 ∧
    ((connectToDevice mockDevice1 true
      (connectToDevice mockDevice0 true initState).2).2.devices.countP
        fun d => d.connected) = 2 ∧
    (connectToDevice mockDevice1 true
      (connectToDevice mockDevice0 true initState).2).2.connectedDevice =
      some { mockDevice1 with connected := true } := by
  refine ⟨?_, by decide, by decide⟩
  exact Relation.ReflTransGen.tail
    (Relation.ReflTransGen.tail Relation.ReflTransGen.refl
      (Step.connect mockDevice0 true initState))
    (Step.connect mockDevice1 true (connectToDevice mockDevice0 true initState).2)

/-- C2 amended: a confirmed `connectToDevice D` sets the connected-device
field to D and flags D's registry entry Connected; when no registry entry
was Connected beforehand and exactly one entry bears D's id, exactly one
entry is Connected afterwards and every Connected entry bears D's id.
(The source does not clear a previously Connected entry, so the original
unconditional claim fails.) -/
theorem connect_single_connected (s : SessionState) (d : BluetoothDevice)
    (hall : ∀ e ∈ s.devices, e.connected = false)
    (hone : (s.devices.countP fun e => e.id = d.id) = 1) :
    ((connectToDevice d true s).2.devices.countP fun e => e.connected) = 1 ∧
    (∀ e ∈ (connectToDevice d true s).2.devices, e.connected = true → e.id = d.id) ∧
    (connectToDevice d true s).2.connectedDevice = some { d with connected := true } := by
  refine ⟨?_, ?_, rfl⟩
  · show ((s.devices.map fun e =>
      if e.id = d.id then { e with connected := true } else e).countP
        fun e => e.connected) = 1
    rw [List.countP_map]
    rw [← hone]
    apply List.countP_congr
    intro e he
    simp only [Function.comp]
    by_cases hid : e.id = d.id
    · simp [hid]
    · simp [hid, hall e he]
  · intro e he hconn
    obtain ⟨e0, he0, rfl⟩ := List.mem_map.mp he
    by_cases hid : e0.id = d.id
    · simp [hid]
    · rw [if_neg hid] at hconn ⊢
      exact absurd hconn (by rw [hall e0 he0]; exact Bool.false_ne_true)

/-- C2 witness: connecting the first baseline device from the initial
state yields exactly one Connected registry entry, bearing its id. -/
theorem connect_single_connected_witness :
    ((connectToDevice mockDevice0 true initState).2.devices.countP
      fun e => e.connected) = 1 ∧
    (∀ e ∈ (connectToDevice mockDevice0 true initState).2.devices,
      e.connected = true → e.id = mockDevice0.id) ∧
    (connectToDevice mockDevice0 true initState).2.connectedDevice =
      some { mockDevice0 with connected := true } :=
  connect_single_connected initState mockDevice0 (by decide) (by decide)

/-- C8 counterexample: the id generator can reproduce a baseline id — with
this random stream one scan returns four devices where positions 0 and 3
share the id "00:11:22:33:44:55", so ids are not unique over all random
choices. -/
theorem discover_ids_unique_counterexample :
    ((scanDevices srCollide).map fun d => d.id).length = 4 ∧
    (((scanDevices srCollide).map fun d => d.id).getD 0 "" =
      ((scanDevices srCollide).map fun d => d.id).getD 3 "") ∧
    ¬ (((scanDevices srCollide).map fun d => d.id).Nodup) := by
  decide

/-- C8 amended: the ids of one scan result are pairwise distinct provided
the freshly generated extra ids are pairwise distinct and avoid the
baseline ids; the random generator does not guarantee that proviso (see
the counterexample). -/
theorem discover_ids_unique (sr : ScanRandom)
    (hfresh : ((scanExtras sr).map fun d => d.id).Nodup)
    (hdisj : ∀ x ∈ (scanExtras sr).map fun d => d.id,
      x ∉ MOCK_DEVICES.map fun d => d.id) :
    ((scanDevices sr).map fun d => d.id).Nodup := by
  rw [scanDevices, List.map_append, List.nodup_append]
  refine ⟨by decide, hfresh, ?_⟩
  intro a ha hb
  exact hdisj a hb ha

/-- C8 witness: a scan whose coin adds no extra devices has pairwise
distinct ids. -/
theorem discover_ids_unique_witness :
    ((scanDevices srNoExtras).map fun d => d.id).Nodup :=
  discover_ids_unique srNoExtras (by decide) (by decide)

/-- C6 counterexample: a blank English argument " " is empty after
trimming, yet `setCustomVietnamesePhrase` (which tests only JavaScript
falsiness, never trimming) accepts it and changes the dictionary —
refuting "fails when either argument is empty or blank after trimming". -/
theorem addPhrase_blank_counterexample :
    strTrim " " = "" ∧
    (setCustomVietnamesePhrase " " "Tạm biệt" DEFAULT_VIETNAMESE_PHRASES).1 =
      AddPhraseResult.added ∧
    (setCustomVietnamesePhrase " " "Tạm biệt" DEFAULT_VIETNAMESE_PHRASES).2 ≠
      DEFAULT_VIETNAMESE_PHRASES := by
  decide

/-- C6 amended: the call fails with the input error and leaves the
dictionary untouched exactly when either argument is the empty string (no
trimming is applied); otherwise it reports success and inserts or fully
overwrites the entry keyed by the lower-cased English phrase, leaving all
other keys unchanged. -/
theorem addPhrase_empty_check (english vietnamese : String)
    (dict : List (String × String)) (he : english ≠ "") (hv : vietnamese ≠ "") :
    (∀ (v : String) (d : List (String × String)),
      setCustomVietnamesePhrase "" v d = (AddPhraseResult.inputError, d)) ∧
    (∀ (e : String) (d : List (String × String)),
      setCustomVietnamesePhrase e "" d = (AddPhraseResult.inputError, d)) ∧
    (setCustomVietnamesePhrase english vietnamese dict).1 = AddPhraseResult.added ∧
    lookupPhrase (setCustomVietnamesePhrase english vietnamese dict).2
      (strToLower english) = some vietnamese ∧
    (∀ k, k ≠ strToLower english →
      lookupPhrase (setCustomVietnamesePhrase english vietnamese dict).2 k =
        lookupPhrase dict k) := by
  have hset : setCustomVietnamesePhrase english vietnamese dict =
      (AddPhraseResult.added, setKey dict (strToLower english) vietnamese) := by
    unfold setCustomVietnamesePhrase
    rw [if_neg]
    simp [he, hv]
  refine ⟨?_, ?_, ?_, ?_, ?_⟩
  · intro v d; simp [setCustomVietnamesePhrase]
  · intro e d; simp [setCustomVietnamesePhrase]
  · rw [hset]
  · rw [hset]; exact lookupPhrase_setKey_self dict (strToLower english) vietnamese
  · intro k hk
    rw [hset]
    exact lookupPhrase_setKey_other dict (strToLower english) vietnamese k hk

/-- C6 witness: adding "Goodbye Friend" succeeds, stores the value under
the lower-cased key, and leaves other keys (and the rejection behavior on
empty arguments) as stated. -/
theorem addPhrase_empty_check_witness :
    (∀ (v : String) (d : List (String × String)),
      setCustomVietnamesePhrase "" v d = (AddPhraseResult.inputError, d)) ∧
    (∀ (e : String) (d : List (String × String)),
      setCustomVietnamesePhrase e "" d = (AddPhraseResult.inputError, d)) ∧
    (setCustomVietnamesePhrase "Goodbye Friend" "Tạm biệt bạn"
      DEFAULT_VIETNAMESE_PHRASES).1 = AddPhraseResult.added ∧
    lookupPhrase (setCustomVietnamesePhrase "Goodbye Friend" "Tạm biệt bạn"
      DEFAULT_VIETNAMESE_PHRASES).2 (strToLower "Goodbye Friend") = some "Tạm biệt bạn" ∧
    (∀ k, k ≠ strToLower "Goodbye Friend" →
      lookupPhrase (setCustomVietnamesePhrase "Goodbye Friend" "Tạm biệt bạn"
        DEFAULT_VIETNAMESE_PHRASES).2 k = lookupPhrase DEFAULT_VIETNAMESE_PHRASES k) :=
  addPhrase_empty_check "Goodbye Friend" "Tạm biệt bạn" DEFAULT_VIETNAMESE_PHRASES
    (by decide) (by decide)

end NotiFin
